import Mathlib

set_option maxHeartbeats 1000000

/-!
Shallow embedding of the hyperv_rs library (src/src/lib.rs): a thin wrapper
around an external PowerShell process.  Pure data and parsing code is
translated directly; the process boundary (spawning, waiting, the stdout
pipe) is modelled by explicit data types describing the outcome of each OS
interaction, so every library function becomes a total Lean function of the
modelled world.
-/

/-- Embeds the error struct HypervError of lib.rs: a single message-carrying
error kind used by every failure path. -/
structure HypervError where
  msg : String
deriving DecidableEq

/-- Embeds the enum VmIncompatibility of lib.rs: six named variants wrapping
the message text, plus a catch-all variant carrying message and code. -/
inductive VmIncompatibility where
  | CannotCreateExternalConfigStore (msg : String)
  | TooManyCores (msg : String)
  | CannotChangeCheckpointLocation (msg : String)
  | CannotChangeSmartPagingStore (msg : String)
  | CannotRestoreSavedState (msg : String)
  | MissingSwitch (msg : String)
  | Other (msg : String) (code : Int)
deriving DecidableEq

/-- Embeds VmIncompatibility::from of lib.rs (renamed: from is a Lean
keyword).  The source matches msg_id against the six known codes in order
and falls through to Other. -/
def VmIncompatibility.ofMsgId (msg_id : Int) (msg : String) : VmIncompatibility :=
  if msg_id = 13000 then .CannotCreateExternalConfigStore msg
  else if msg_id = 14420 then .TooManyCores msg
  else if msg_id = 16350 then .CannotChangeCheckpointLocation msg
  else if msg_id = 16352 then .CannotChangeSmartPagingStore msg
  else if msg_id = 25014 then .CannotRestoreSavedState msg
  else if msg_id = 33012 then .MissingSwitch msg
  else .Other msg msg_id

/-- Embeds VmIncompatibility::message_id of lib.rs. -/
def VmIncompatibility.message_id : VmIncompatibility → Int
  | .CannotCreateExternalConfigStore _ => 13000
  | .TooManyCores _ => 14420
  | .CannotChangeCheckpointLocation _ => 16350
  | .CannotChangeSmartPagingStore _ => 16352
  | .CannotRestoreSavedState _ => 25014
  | .MissingSwitch _ => 33012
  | .Other _ i => i

/-- Embeds VmIncompatibility::message of lib.rs. -/
def VmIncompatibility.message : VmIncompatibility → String
  | .CannotCreateExternalConfigStore s => s
  | .TooManyCores s => s
  | .CannotChangeCheckpointLocation s => s
  | .CannotChangeSmartPagingStore s => s
  | .CannotRestoreSavedState s => s
  | .MissingSwitch s => s
  | .Other s _ => s

/-- True exactly on the catch-all Other variant. -/
def VmIncompatibility.isOther : VmIncompatibility → Bool
  | .Other _ _ => true
  | _ => false

/-- Constructor index of a variant, used to state that the variant of
VmIncompatibility.ofMsgId is determined by the code alone. -/
def variantTag : VmIncompatibility → Nat
  | .CannotCreateExternalConfigStore _ => 0
  | .TooManyCores _ => 1
  | .CannotChangeCheckpointLocation _ => 2
  | .CannotChangeSmartPagingStore _ => 3
  | .CannotRestoreSavedState _ => 4
  | .MissingSwitch _ => 5
  | .Other _ _ => 6

/-- The six message ids the match of VmIncompatibility::from names. -/
def knownMessageIds : List Int := [13000, 14420, 16350, 16352, 25014, 33012]

/-- Rust char::is_whitespace (the Unicode White_Space property), used by
str::trim in the compare_vm line transform. -/
def rustIsWhitespace (c : Char) : Bool :=
  decide ((9 ≤ c.toNat ∧ c.toNat ≤ 13) ∨ c.toNat = 32 ∨ c.toNat = 133 ∨
    c.toNat = 160 ∨ c.toNat = 0x1680 ∨ (0x2000 ≤ c.toNat ∧ c.toNat ≤ 0x200A) ∨
    c.toNat = 0x2028 ∨ c.toNat = 0x2029 ∨ c.toNat = 0x202F ∨ c.toNat = 0x205F ∨
    c.toNat = 0x3000)

/-- Rust str::trim: drop leading and trailing whitespace. -/
def rustTrim (s : String) : String :=
  String.mk (((s.data.dropWhile rustIsWhitespace).reverse.dropWhile rustIsWhitespace).reverse)

/-- Rust line.splitn(2, ' ') as used in compare_vm: the characters before the
first space, and (when a space exists) everything after it. -/
def splitFirstSpace : List Char → List Char × Option (List Char)
  | [] => ([], none)
  | c :: rest =>
    if c = ' ' then ([], some rest)
    else
      let p := splitFirstSpace rest
      (c :: p.1, p.2)

/-- Value of an ASCII decimal digit. -/
def digitVal (c : Char) : Option Nat :=
  if 48 ≤ c.toNat ∧ c.toNat ≤ 57 then some (c.toNat - 48) else none

/-- Digit-accumulation loop of Rust i64 from_str: per digit, reject a
non-digit, then reject overflow past the i64 bounds.  Negative numbers
accumulate downward exactly as the checked_sub chain of the source. -/
def parseI64Loop (neg : Bool) : List Char → Int → Except String Int
  | [], acc => .ok acc
  | c :: rest, acc =>
    match digitVal c with
    | none => .error "invalid digit found in string"
    | some d =>
      if neg then
        let acc2 := acc * 10 - (d : Int)
        if acc2 < -(2 ^ 63) then .error "number too small to fit in target type"
        else parseI64Loop neg rest acc2
      else
        let acc2 := acc * 10 + (d : Int)
        if (2 ^ 63 - 1 : Int) < acc2 then .error "number too large to fit in target type"
        else parseI64Loop neg rest acc2

/-- Rust str::parse::<i64>: empty input is an error, an optional single
leading sign, then one or more ASCII digits, with i64 overflow checking.
Error strings are the Display texts of core's ParseIntError. -/
def parseI64 (s : String) : Except String Int :=
  match s.data with
  | [] => .error "cannot parse integer from empty string"
  | c :: rest =>
    if c = '+' then
      match rest with
      | [] => .error "invalid digit found in string"
      | _ => parseI64Loop false rest 0
    else if c = '-' then
      match rest with
      | [] => .error "invalid digit found in string"
      | _ => parseI64Loop true rest 0
    else parseI64Loop false (c :: rest) 0

/-- Strip one trailing carriage return, as BufRead::lines does after
stripping the newline. -/
def stripCR (cs : List Char) : List Char :=
  match cs.getLast? with
  | some c => if c = '\r' then cs.dropLast else cs
  | none => cs

/-- Accumulating worker for rustLines: cur holds the characters of the line
being read.  At a newline the line is emitted with its optional carriage
return stripped; a final line without a terminator is emitted as is, and a
trailing newline produces no extra empty line. -/
def rustLinesAux (cur : List Char) : List Char → List String
  | [] => if cur.isEmpty then [] else [String.mk cur]
  | c :: rest =>
    if c = '\n' then String.mk (stripCR cur) :: rustLinesAux [] rest
    else rustLinesAux (cur ++ [c]) rest

/-- BufReader::lines over an (always valid UTF-8 in this model) stdout
stream.  The io-error branch of map_lines (an invalid-UTF-8 line) is outside
this text-stream model. -/
def rustLines (s : String) : List String := rustLinesAux [] s.data

/-- A spawned PowerShell process as the streamed operations observe it: the
stdout pipe (None models PsProcess::stdout returning None) and the exit
status the process will eventually report.  get_vms and compare_vm read only
the stdout field. -/
structure PsProcess where
  stdout : Option String
  exitStatus : Option Int
deriving DecidableEq

/-- Outcome of spawning in streamed mode: the spawn either fails with an OS
error text or yields a process handle. -/
inductive StreamSpawn where
  | fail (os : String)
  | ok (proc : PsProcess)
deriving DecidableEq

/-- Output snapshot of wait_with_output: exit code (None models a signal
termination with no code) and the raw stdout and stderr bytes. -/
structure ProcessOutput where
  statusCode : Option Int
  stdout : List Nat
  stderr : List Nat
deriving DecidableEq

/-- Outcome of spawn followed by wait_with_output, for the buffered mode of
spawn_and_wait: the spawn can fail, the OS wait call can fail, or a full
output snapshot is returned. -/
inductive SpawnResult where
  | spawnErr (os : String)
  | waitErr (os : String)
  | ok (output : ProcessOutput)
deriving DecidableEq

/-- ExitStatus::success: the exit code is present and zero. -/
def statusSuccess : Option Int → Bool
  | some 0 => true
  | _ => false

/-- output.status.code().map(to_string).unwrap_or("<none>") of
spawn_and_wait. -/
def exitCodeStr : Option Int → String
  | some c => toString c
  | none => "<none>"

/-- The inner fn handle_blank of spawn_and_wait. -/
def handle_blank (s : String) : String :=
  if !s.isEmpty then s else "<empty>"

/-- Continuation byte test of UTF-8 decoding. -/
def utf8IsCont (b : Nat) : Bool := decide (0x80 ≤ b ∧ b ≤ 0xBF)

/-- The replacement character emitted by lossy UTF-8 decoding. -/
def replChar : Char := Char.ofNat 0xFFFD

/-- Valid second byte of a three-byte UTF-8 sequence, per lead byte
(called with 0xE0 ≤ b0 ≤ 0xEF). -/
def utf8Valid2 (b0 b1 : Nat) : Bool :=
  if b0 = 0xE0 then decide (0xA0 ≤ b1 ∧ b1 ≤ 0xBF)
  else if b0 ≤ 0xEC then utf8IsCont b1
  else if b0 = 0xED then decide (0x80 ≤ b1 ∧ b1 ≤ 0x9F)
  else utf8IsCont b1

/-- Valid second byte of a four-byte UTF-8 sequence, per lead byte
(called with 0xF0 ≤ b0 ≤ 0xF4). -/
def utf8Valid2f (b0 b1 : Nat) : Bool :=
  if b0 = 0xF0 then decide (0x90 ≤ b1 ∧ b1 ≤ 0xBF)
  else if b0 ≤ 0xF3 then utf8IsCont b1
  else decide (0x80 ≤ b1 ∧ b1 ≤ 0x8F)

/-- Lossy UTF-8 decoding with the substitution-of-maximal-subparts policy of
Rust String::from_utf8_lossy: each maximal invalid subsequence becomes one
replacement character, and decoding never fails.  Fuel decreases once per
emitted character; every step consumes at least one byte, so fuel equal to
the byte count suffices. -/
def utf8LossyAux : Nat → List Nat → List Char
  | 0, _ => []
  | _ + 1, [] => []
  | fuel + 1, b0 :: rest =>
    if b0 < 0x80 then Char.ofNat b0 :: utf8LossyAux fuel rest
    else if b0 < 0xC2 then replChar :: utf8LossyAux fuel rest
    else if b0 ≤ 0xDF then
      match rest with
      | [] => [replChar]
      | b1 :: rest1 =>
        if utf8IsCont b1 then
          Char.ofNat ((b0 - 0xC0) * 0x40 + (b1 - 0x80)) :: utf8LossyAux fuel rest1
        else replChar :: utf8LossyAux fuel rest
    else if b0 ≤ 0xEF then
      match rest with
      | [] => [replChar]
      | b1 :: rest1 =>
        if utf8Valid2 b0 b1 then
          match rest1 with
          | [] => [replChar]
          | b2 :: rest2 =>
            if utf8IsCont b2 then
              Char.ofNat ((b0 - 0xE0) * 0x1000 + (b1 - 0x80) * 0x40 + (b2 - 0x80)) ::
                utf8LossyAux fuel rest2
            else replChar :: utf8LossyAux fuel rest1
        else replChar :: utf8LossyAux fuel rest
    else if b0 ≤ 0xF4 then
      match rest with
      | [] => [replChar]
      | b1 :: rest1 =>
        if utf8Valid2f b0 b1 then
          match rest1 with
          | [] => [replChar]
          | b2 :: rest2 =>
            if utf8IsCont b2 then
              match rest2 with
              | [] => [replChar]
              | b3 :: rest3 =>
                if utf8IsCont b3 then
                  Char.ofNat ((b0 - 0xF0) * 0x40000 + (b1 - 0x80) * 0x1000 +
                      (b2 - 0x80) * 0x40 + (b3 - 0x80)) :: utf8LossyAux fuel rest3
                else replChar :: utf8LossyAux fuel rest2
            else replChar :: utf8LossyAux fuel rest1
        else replChar :: utf8LossyAux fuel rest
    else replChar :: utf8LossyAux fuel rest

/-- String::from_utf8_lossy over a byte list. -/
def fromUtf8Lossy (bytes : List Nat) : String :=
  String.mk (utf8LossyAux bytes.length bytes)

/-- Embeds to_string_truncated of lib.rs: take min(len, take) bytes, then
decode them lossily. -/
def to_string_truncated (bytes : List Nat) (take : Nat) : String :=
  let len := min bytes.length take
  fromUtf8Lossy (bytes.take len)

/-- Embeds Hyperv::spawn_and_wait of lib.rs over the modelled process
outcome.  Note the source reuses the spawn-failure message text for a failed
OS wait call (lib.rs line 88). -/
def spawn_and_wait (r : SpawnResult) : Except HypervError ProcessOutput :=
  match r with
  | .spawnErr e => .error ⟨"Failed to spawn PowerShell process: " ++ e⟩
  | .waitErr e => .error ⟨"Failed to spawn PowerShell process: " ++ e⟩
  | .ok output =>
    if !statusSuccess output.statusCode then
      .error ⟨"Powershell returned failure exit code: " ++ exitCodeStr output.statusCode ++
        ".\nStdout: " ++ handle_blank (to_string_truncated output.stdout 1000) ++
        " \nStderr: " ++ handle_blank (to_string_truncated output.stderr 1000)⟩
    else .ok output

/-- Fold of the line loop of Hyperv::map_lines: apply f to each line in
order, skip None results, stop at the first error. -/
def mapLinesGo {T : Type} (f : String → Except HypervError (Option T)) :
    List String → Except HypervError (List T)
  | [] => .ok []
  | l :: ls =>
    match f l with
    | .error e => .error e
    | .ok none => mapLinesGo f ls
    | .ok (some t) =>
      match mapLinesGo f ls with
      | .error e => .error e
      | .ok ts => .ok (t :: ts)

/-- Embeds Hyperv::map_lines of lib.rs: obtain the stdout pipe (error when
it is unavailable), split it into lines and fold the transform over them. -/
def map_lines {T : Type} (process : PsProcess)
    (f : String → Except HypervError (Option T)) : Except HypervError (List T) :=
  match process.stdout with
  | none => .error ⟨"Could not access stdout of powershell process"⟩
  | some s => mapLinesGo f (rustLines s)

/-- Embeds the line transform closure of Hyperv::compare_vm: trim the line,
skip it when blank, split at the first space into a MessageId token and a
Message, and parse the MessageId as an i64.  The No-MessageId branch of the
source is unreachable because splitn always yields a first part. -/
def compare_transform (line : String) : Except HypervError (Option VmIncompatibility) :=
  let t := rustTrim line
  if t = "" then .ok none
  else
    match (splitFirstSpace t.data).2 with
    | none => .error ⟨"Failed to parse to VmIncomatibility. No Message in string"⟩
    | some msgChars =>
      match parseI64 (String.mk (splitFirstSpace t.data).1) with
      | .error e =>
        .error ⟨"Failed to parse to VmIncomatibility. Cannot parse MessageId to i64: " ++ e⟩
      | .ok msg_id => .ok (some (VmIncompatibility.ofMsgId msg_id (String.mk msgChars)))

/-- A line whose transform fails in compare_vm: non-blank after trimming,
and either no space after the first token or a first token that does not
parse as an i64. -/
def badCompareLine (l : String) : Bool :=
  let t := rustTrim l
  if t = "" then false
  else
    match (splitFirstSpace t.data).2 with
    | none => true
    | some _ =>
      match parseI64 (String.mk (splitFirstSpace t.data).1) with
      | .ok _ => false
      | .error _ => true

/-- The filesystem facts about a caller-supplied path that
Hyperv::validate_file_path consults: whether the path refers to an existing
regular file, and its to_str rendering (None when not representable). -/
structure PathInfo where
  is_file : Bool
  as_str : Option String
deriving DecidableEq

/-- Embeds Hyperv::validate_file_path of lib.rs. -/
def validate_file_path (p : PathInfo) : Except HypervError String :=
  if !p.is_file then .error ⟨"Path does not point to a valid file"⟩
  else
    match p.as_str with
    | none => .error ⟨"Bad path"⟩
    | some s => .ok s

/-- Embeds Hyperv::import_vm of lib.rs: validate the path, then spawn and
wait.  The second component counts spawn calls, to express that a failed
validation spawns nothing. -/
def import_vm (p : PathInfo) (r : SpawnResult) : Except HypervError Unit × Nat :=
  match validate_file_path p with
  | .error e => (.error e, 0)
  | .ok _ =>
    match spawn_and_wait r with
    | .error e => (.error e, 1)
    | .ok _ => (.ok (), 1)

/-- Embeds Hyperv::compare_vm of lib.rs: validate the path, spawn in
streamed mode, then classify the stdout lines with compare_transform.  The
second component counts spawn calls. -/
def compare_vm (p : PathInfo) (w : StreamSpawn) :
    Except HypervError (List VmIncompatibility) × Nat :=
  match validate_file_path p with
  | .error e => (.error e, 0)
  | .ok _ =>
    match w with
    | .fail os => (.error ⟨"Failed to spawn PowerShell process: " ++ os⟩, 1)
    | .ok proc => (map_lines proc compare_transform, 1)

/-- A 128-bit UUID as the uuid crate stores it, as its numeric value (the
big-endian reading of the 32 hex digits). -/
structure Uuid where
  val : Nat
deriving DecidableEq

/-- Value of a hexadecimal digit, upper or lower case. -/
def hexVal (c : Char) : Option Nat :=
  if 48 ≤ c.toNat ∧ c.toNat ≤ 57 then some (c.toNat - 48)
  else if 97 ≤ c.toNat ∧ c.toNat ≤ 102 then some (c.toNat - 87)
  else if 65 ≤ c.toNat ∧ c.toNat ≤ 70 then some (c.toNat - 55)
  else none

/-- Accumulate the simple (32 hex digits, no hyphens) UUID form. -/
def parseSimpleAux : List Char → Nat → Option Nat
  | [], acc => some acc
  | c :: rest, acc =>
    match hexVal c with
    | none => none
    | some d => parseSimpleAux rest (acc * 16 + d)

/-- Accumulate the hyphenated UUID form by character index: positions 8, 13,
18 and 23 must be hyphens, every other position a hex digit. -/
def parseHyphAux : Nat → List Char → Nat → Option Nat
  | _, [], acc => some acc
  | i, c :: rest, acc =>
    if i = 8 ∨ i = 13 ∨ i = 18 ∨ i = 23 then
      if c = '-' then parseHyphAux (i + 1) rest acc else none
    else
      match hexVal c with
      | none => none
      | some d => parseHyphAux (i + 1) rest (acc * 16 + d)

/-- Modelled on Uuid::parse_str of the uuid crate, which the serde
Deserialize impl of Uuid applies to the identifier text: an optional
urn:uuid: prefix (on 45-character input), then either the simple
32-hex-digit form or the hyphenated 8-4-4-4-12 form, hex digits in either
case; anything else is rejected. -/
def uuidTryParse (s : String) : Option Uuid :=
  let cs0 := s.data
  let cs := if cs0.length = 45 ∧ cs0.take 9 = ("urn:uuid:").data then cs0.drop 9 else cs0
  if cs.length = 32 then (parseSimpleAux cs 0).map Uuid.mk
  else if cs.length = 36 then (parseHyphAux 0 cs 0).map Uuid.mk
  else none

/-- Embeds the struct Vm of lib.rs: the Id field as a UUID and the Name
field as text. -/
structure Vm where
  id : Uuid
  name : String
deriving DecidableEq

/-- The opening brace character (written by code point to keep brace
characters out of the source text). -/
def lbraceChar : Char := Char.ofNat 123

/-- The closing brace character. -/
def rbraceChar : Char := Char.ofNat 125

/-- JSON insignificant whitespace as serde_json skips it. -/
def jsonWs (c : Char) : Bool := c = ' ' || c = '\t' || c = '\n' || c = '\r'

/-- Skip insignificant whitespace. -/
def skipWs (cs : List Char) : List Char := cs.dropWhile jsonWs

/-- Single-character JSON string escapes. -/
def escChar (e : Char) : Option Char :=
  if e = '"' then some '"'
  else if e = '\\' then some '\\'
  else if e = '/' then some '/'
  else if e = 'b' then some (Char.ofNat 8)
  else if e = 'f' then some (Char.ofNat 12)
  else if e = 'n' then some '\n'
  else if e = 'r' then some '\r'
  else if e = 't' then some '\t'
  else none

/-- JSON string body scanner with an escape state: when esc is true the
previous character was a backslash and the current character is decoded as
an escape code.  Control characters are rejected; the \u escape form is not
modelled (no claim exercises it). -/
def parseJStringSt : Bool → List Char → Option (List Char × List Char)
  | _, [] => none
  | true, e :: rest =>
    match escChar e with
    | none => none
    | some d =>
      match parseJStringSt false rest with
      | none => none
      | some p => some (d :: p.1, p.2)
  | false, c :: rest =>
    if c = '"' then some ([], rest)
    else if c = '\\' then parseJStringSt true rest
    else if c.toNat < 0x20 then none
    else
      match parseJStringSt false rest with
      | none => none
      | some p => some (c :: p.1, p.2)

/-- JSON string body parser, after the opening quote: returns the decoded
content and the input after the closing quote. -/
def parseJStringAux (cs : List Char) : Option (List Char × List Char) :=
  parseJStringSt false cs

/-- Parse one JSON string token (leading whitespace, opening quote, body). -/
def parseStringToken (cs : List Char) : Except String (List Char × List Char) :=
  match skipWs cs with
  | [] => .error "unexpected end of input"
  | c :: cs1 =>
    if c = '"' then
      match parseJStringAux cs1 with
      | none => .error "invalid string"
      | some p => .ok p
    else .error "expected string"

/-- Parse one string-valued object field: key, colon, string value.  Both
fields of Vm are string-typed on the wire, so the type-directed serde
deserializer only ever reads string values here. -/
def parseField (cs : List Char) : Except String ((String × String) × List Char) :=
  match parseStringToken cs with
  | .error e => .error e
  | .ok (key, cs1) =>
    match skipWs cs1 with
    | [] => .error "unexpected end of input"
    | c :: cs2 =>
      if c = ':' then
        match parseStringToken cs2 with
        | .error e => .error e
        | .ok (v, cs3) => .ok ((String.mk key, String.mk v), cs3)
      else .error "expected colon"

/-- Build a Vm from the two parsed fields, in either order, as the derived
Deserialize impl assigns them: the Id value goes through UUID parsing
(rejecting malformed identifiers), the Name value is kept as text.
Duplicate or unknown keys are errors (the serde default would skip unknown
fields; no modelled document has any). -/
def mkVm (k1 v1 k2 v2 : String) : Except String Vm :=
  if k1 = "Id" then
    if k2 = "Name" then
      match uuidTryParse v1 with
      | some u => .ok ⟨u, v2⟩
      | none => .error "UUID parsing failed"
    else if k2 = "Id" then .error "duplicate field Id"
    else .error "unknown field"
  else if k1 = "Name" then
    if k2 = "Id" then
      match uuidTryParse v2 with
      | some u => .ok ⟨u, v1⟩
      | none => .error "UUID parsing failed"
    else if k2 = "Name" then .error "duplicate field Name"
    else .error "unknown field"
  else .error "unknown field"

/-- Close one Vm object once both fields are parsed. -/
def vmFromFields (kv1 kv2 : String × String) (cs5 : List Char) :
    Except String (Vm × List Char) :=
  match mkVm kv1.1 kv1.2 kv2.1 kv2.2 with
  | .error e => .error e
  | .ok vm => .ok (vm, cs5)

/-- Continue a Vm object after its first field: a comma, the second field,
the close brace. -/
def afterField1 (kv1 : String × String) (cs2 : List Char) :
    Except String (Vm × List Char) :=
  match skipWs cs2 with
  | [] => .error "unexpected end of input"
  | c2 :: cs3 =>
    if c2 = ',' then
      match parseField cs3 with
      | .error e => .error e
      | .ok (kv2, cs4) =>
        match skipWs cs4 with
        | [] => .error "unexpected end of input"
        | c3 :: cs5 =>
          if c3 = rbraceChar then vmFromFields kv1 kv2 cs5
          else .error "expected close brace"
    else if c2 = rbraceChar then .error "missing field"
    else .error "expected comma or close brace"

/-- Parse one Vm object: an open brace, exactly the two fields of Vm
separated by a comma, a close brace. -/
def parseVmObject (cs : List Char) : Except String (Vm × List Char) :=
  match skipWs cs with
  | [] => .error "unexpected end of input"
  | c :: cs1 =>
    if c = lbraceChar then
      match parseField cs1 with
      | .error e => .error e
      | .ok (kv1, cs2) => afterField1 kv1 cs2
    else .error "expected object"

/-- Element loop of the Vec<Vm> deserialization: one object, then either the
closing bracket (with only whitespace allowed after, as from_reader demands
end of stream) or a comma and further elements.  Each element consumes at
least one character, so fuel above the input length suffices. -/
def parseVmsElems : Nat → List Char → Except String (List Vm)
  | 0, _ => .error "recursion limit exceeded"
  | fuel + 1, cs =>
    match parseVmObject cs with
    | .error e => .error e
    | .ok (vm, cs1) =>
      match skipWs cs1 with
      | [] => .error "unexpected end of input"
      | c :: cs2 =>
        if c = ']' then
          if (skipWs cs2).isEmpty then .ok [vm] else .error "trailing characters"
        else if c = ',' then
          match parseVmsElems fuel cs2 with
          | .error e => .error e
          | .ok vms => .ok (vm :: vms)
        else .error "expected comma or close bracket"

/-- Modelled on serde_json::from_reader deserializing Vec<Vm>: the stream
must hold one JSON array of Vm objects followed only by whitespace. -/
def parseVmsDoc (s : String) : Except String (List Vm) :=
  match skipWs s.data with
  | [] => .error "unexpected end of input"
  | c :: cs1 =>
    if c = '[' then
      match skipWs cs1 with
      | [] => .error "unexpected end of input"
      | c2 :: cs2 =>
        if c2 = ']' then
          if (skipWs cs2).isEmpty then .ok [] else .error "trailing characters"
        else parseVmsElems (cs1.length + 1) cs1
    else .error "expected array"

/-- Embeds Hyperv::get_vms of lib.rs over the modelled spawn outcome: spawn
the listing command, take the stdout pipe (error when unavailable), decode
the stream as a Vec<Vm> document.  The exit status of the process is never
consulted. -/
def get_vms (w : StreamSpawn) : Except HypervError (List Vm) :=
  match w with
  | .fail os => .error ⟨"Failed to spawn PowerShell process: " ++ os⟩
  | .ok proc =>
    match proc.stdout with
    | none => .error ⟨"Could not access stdout of powershell process"⟩
    | some s =>
      match parseVmsDoc s with
      | .error e => .error ⟨"Failed to parse powershell output: " ++ e⟩
      | .ok vms => .ok vms

/-- The one-record listing document of the spec's test property, with the
given identifier text spliced in. -/
def vmDoc (s : String) : String :=
  "[\x7b\"Id\":\"" ++ s ++ "\",\"Name\":\"vm1\"\x7d]"

/-- A character that may stand unescaped inside a JSON string literal: not a
quote, not a backslash, not a control character. -/
def plainChar (c : Char) : Bool :=
  decide (c.toNat ≠ 34 ∧ c.toNat ≠ 92 ∧ 32 ≤ c.toNat)

/-- Associativity of string concatenation, used to factor error-message
prefixes. -/
theorem strAppendAssoc (a b c : String) : a ++ b ++ c = a ++ (b ++ c) := by
  cases a
  cases b
  cases c
  apply congrArg String.mk
  apply List.append_assoc

/-- C1: for each of the six known codes, VmIncompatibility.ofMsgId returns
the corresponding named variant, message_id recovers exactly the code and
message recovers exactly the message for every input; every other code
yields Other carrying both, so the code round-trips through the variant. -/
theorem spec_C1 (m : String) (code : Int) :
    (VmIncompatibility.ofMsgId code m).message_id = code ∧
    (VmIncompatibility.ofMsgId code m).message = m ∧
    VmIncompatibility.ofMsgId 13000 m = .CannotCreateExternalConfigStore m ∧
    VmIncompatibility.ofMsgId 14420 m = .TooManyCores m ∧
    VmIncompatibility.ofMsgId 16350 m = .CannotChangeCheckpointLocation m ∧
    VmIncompatibility.ofMsgId 16352 m = .CannotChangeSmartPagingStore m ∧
    VmIncompatibility.ofMsgId 25014 m = .CannotRestoreSavedState m ∧
    VmIncompatibility.ofMsgId 33012 m = .MissingSwitch m ∧
    (code ∉ knownMessageIds → VmIncompatibility.ofMsgId code m = .Other m code) := by
  refine ⟨?_, ?_, rfl, rfl, rfl, rfl, rfl, rfl, ?_⟩
  · unfold VmIncompatibility.ofMsgId
    split_ifs with h1 h2 h3 h4 h5 h6 <;> simp_all [VmIncompatibility.message_id]
  · unfold VmIncompatibility.ofMsgId
    split_ifs <;> simp [VmIncompatibility.message]
  · intro hn
    unfold VmIncompatibility.ofMsgId
    split_ifs with h1 h2 h3 h4 h5 h6 <;> simp_all [knownMessageIds]

/-- C2: classifying the concrete stream of the spec's test property yields
exactly the two variants in source order, with the blank line skipped. -/
theorem spec_C2 (st : Option Int) :
    map_lines ⟨some "13000 Msg A\n\n16350 Msg B\n", st⟩ compare_transform =
      .ok [VmIncompatibility.CannotCreateExternalConfigStore "Msg A",
           VmIncompatibility.CannotChangeCheckpointLocation "Msg B"] := by
  rfl

/-- C7 (code behaviour at the failing input): when the OS wait call fails,
the source produces an error whose message is the spawn-failure text, so it
is indistinguishable from a SpawnFailed with the same OS error. -/
theorem spec_C7 :
    spawn_and_wait (.waitErr "Interrupted system call") =
      .error ⟨"Failed to spawn PowerShell process: Interrupted system call"⟩ ∧
    spawn_and_wait (.spawnErr "Interrupted system call") =
      .error ⟨"Failed to spawn PowerShell process: Interrupted system call"⟩ :=
  ⟨rfl, rfl⟩

/-- C10: VmIncompatibility.ofMsgId returns Other exactly when the code is
not one of the six known codes, and the variant of the result is determined
by the code alone. -/
theorem spec_C10 (code : Int) (m m2 : String) :
    ((VmIncompatibility.ofMsgId code m).isOther = true ↔ code ∉ knownMessageIds) ∧
    variantTag (VmIncompatibility.ofMsgId code m) =
      variantTag (VmIncompatibility.ofMsgId code m2) := by
  unfold VmIncompatibility.ofMsgId
  constructor
  · split_ifs with h1 h2 h3 h4 h5 h6 <;>
      simp_all [VmIncompatibility.isOther, knownMessageIds]
  · split_ifs <;> rfl

/-- C6: when the path does not refer to an existing regular file, both
import_vm and compare_vm fail with the invalid-path error and spawn no
process at all (spawn count 0). -/
theorem spec_C6 (p : PathInfo) (r : SpawnResult) (w : StreamSpawn)
    (h : p.is_file = false) :
    import_vm p r = (.error ⟨"Path does not point to a valid file"⟩, 0) ∧
    compare_vm p w = (.error ⟨"Path does not point to a valid file"⟩, 0) := by
  have hv : validate_file_path p = .error ⟨"Path does not point to a valid file"⟩ := by
    unfold validate_file_path
    rw [h]
    rfl
  constructor
  · simp [import_vm, hv]
  · simp [compare_vm, hv]

/-- Witness for C6 at a concrete non-file path. -/
theorem spec_C6_witness :
    (PathInfo.mk false (some "C:\\vm.xml")).is_file = false ∧
    (import_vm ⟨false, some "C:\\vm.xml"⟩ (.spawnErr "x") =
        (.error ⟨"Path does not point to a valid file"⟩, 0) ∧
     compare_vm ⟨false, some "C:\\vm.xml"⟩ (.fail "x") =
        (.error ⟨"Path does not point to a valid file"⟩, 0)) :=
  ⟨rfl, spec_C6 ⟨false, some "C:\\vm.xml"⟩ (.spawnErr "x") (.fail "x") rfl⟩

/-- C4: a non-zero exit with more than 1000 bytes of stdout yields the
NonZeroExit error whose stdout diagnostic is the lossy decoding of exactly
the first 1000 stdout bytes; stderr is truncated and rendered identically,
blank rendered output becomes the <empty> sentinel and a missing exit code
the <none> sentinel. -/
theorem spec_C4 (out : ProcessOutput) (h1 : statusSuccess out.statusCode = false)
    (h2 : 1000 < out.stdout.length) :
    spawn_and_wait (.ok out) =
      .error ⟨"Powershell returned failure exit code: " ++ exitCodeStr out.statusCode ++
        ".\nStdout: " ++ handle_blank (to_string_truncated out.stdout 1000) ++
        " \nStderr: " ++ handle_blank (to_string_truncated out.stderr 1000)⟩ ∧
    to_string_truncated out.stdout 1000 = fromUtf8Lossy (out.stdout.take 1000) ∧
    (out.stdout.take 1000).length = 1000 ∧
    to_string_truncated out.stderr 1000 =
      fromUtf8Lossy (out.stderr.take (min out.stderr.length 1000)) ∧
    handle_blank "" = "<empty>" ∧
    exitCodeStr none = "<none>" := by
  refine ⟨?_, ?_, ?_, rfl, rfl, rfl⟩
  · simp [spawn_and_wait, h1]
  · unfold to_string_truncated
    have hm : min out.stdout.length 1000 = 1000 := by omega
    rw [hm]
  · rw [List.length_take]
    omega

/-- Witness for C4 at a concrete failed output with 1001 stdout bytes. -/
theorem spec_C4_witness :
    statusSuccess (some 1) = false ∧
    1000 < (List.replicate 1001 (65 : Nat)).length ∧
    (spawn_and_wait (.ok ⟨some 1, List.replicate 1001 65, []⟩) =
      .error ⟨"Powershell returned failure exit code: " ++ exitCodeStr (some 1) ++
        ".\nStdout: " ++ handle_blank (to_string_truncated (List.replicate 1001 65) 1000) ++
        " \nStderr: " ++ handle_blank (to_string_truncated [] 1000)⟩ ∧
    to_string_truncated (List.replicate 1001 65) 1000 =
      fromUtf8Lossy ((List.replicate 1001 (65 : Nat)).take 1000) ∧
    ((List.replicate 1001 (65 : Nat)).take 1000).length = 1000 ∧
    to_string_truncated ([] : List Nat) 1000 =
      fromUtf8Lossy (([] : List Nat).take (min ([] : List Nat).length 1000)) ∧
    handle_blank "" = "<empty>" ∧
    exitCodeStr none = "<none>") :=
  ⟨rfl, by rw [List.length_replicate]; norm_num,
   spec_C4 ⟨some 1, List.replicate 1001 65, []⟩ rfl (by rw [List.length_replicate]; norm_num)⟩

/-- A bad line makes compare_transform fail, with the common
failed-to-parse message prefix of the transform's error sites. -/
theorem compare_transform_err_of_bad (l : String) (h : badCompareLine l = true) :
    ∃ e, compare_transform l = .error e ∧
      ∃ r, e.msg = "Failed to parse to VmIncomatibility. " ++ r := by
  unfold badCompareLine at h
  unfold compare_transform
  by_cases ht : rustTrim l = ""
  · rw [if_pos ht] at h
    exact absurd h (by simp)
  · rw [if_neg ht] at h
    rw [if_neg ht]
    cases h2 : (splitFirstSpace (rustTrim l).data).2 with
    | none =>
      exact ⟨_, rfl, "No Message in string", rfl⟩
    | some msgChars =>
      rw [h2] at h
      simp only at h
      cases hp : parseI64 (String.mk (splitFirstSpace (rustTrim l).data).1) with
      | error e =>
        refine ⟨_, rfl, "Cannot parse MessageId to i64: " ++ e, ?_⟩
        exact (strAppendAssoc "Failed to parse to VmIncomatibility. "
          "Cannot parse MessageId to i64: " e).symm
      | ok v =>
        rw [hp] at h
        simp at h

/-- A good line makes compare_transform succeed. -/
theorem compare_transform_ok_of_good (l : String) (h : badCompareLine l = false) :
    ∃ v, compare_transform l = .ok v := by
  unfold badCompareLine at h
  unfold compare_transform
  by_cases ht : rustTrim l = ""
  · rw [if_pos ht]
    exact ⟨none, rfl⟩
  · rw [if_neg ht] at h
    rw [if_neg ht]
    cases h2 : (splitFirstSpace (rustTrim l).data).2 with
    | none =>
      rw [h2] at h
      simp at h
    | some msgChars =>
      rw [h2] at h
      simp only at h
      cases hp : parseI64 (String.mk (splitFirstSpace (rustTrim l).data).1) with
      | error e =>
        rw [hp] at h
        simp at h
      | ok v =>
        exact ⟨_, rfl⟩

/-- The line fold fails whole when any line of the list is bad. -/
theorem mapLinesGo_err_of_bad (ls : List String)
    (h : ∃ l ∈ ls, badCompareLine l = true) :
    ∃ e, mapLinesGo compare_transform ls = .error e ∧
      ∃ r, e.msg = "Failed to parse to VmIncomatibility. " ++ r := by
  induction ls with
  | nil => simp at h
  | cons l ls ih =>
    by_cases hb : badCompareLine l = true
    · obtain ⟨e, he, r, hr⟩ := compare_transform_err_of_bad l hb
      exact ⟨e, by simp [mapLinesGo, he], r, hr⟩
    · have hb2 : badCompareLine l = false := by
        revert hb
        cases badCompareLine l <;> simp
      obtain ⟨v, hv⟩ := compare_transform_ok_of_good l hb2
      have h2 : ∃ x ∈ ls, badCompareLine x = true := by
        rcases h with ⟨x, hx, hxb⟩
        rcases List.mem_cons.mp hx with h1 | h1
        · subst h1
          exact absurd hxb hb
        · exact ⟨x, h1, hxb⟩
      obtain ⟨e, he, r, hr⟩ := ih h2
      cases v with
      | none => exact ⟨e, by simp [mapLinesGo, hv, he], r, hr⟩
      | some t => exact ⟨e, by simp [mapLinesGo, hv, he], r, hr⟩

/-- C3: any stream containing a non-blank line with no space after its
first token, or whose first token does not parse as an i64, makes the whole
compare line classification fail with a line-parse error; no partial
sequence is returned. -/
theorem spec_C3 (s : String) (st : Option Int)
    (h : ∃ l ∈ rustLines s, badCompareLine l = true) :
    ∃ e, map_lines ⟨some s, st⟩ compare_transform = .error e ∧
      ∃ r, e.msg = "Failed to parse to VmIncomatibility. " ++ r := by
  have h2 := mapLinesGo_err_of_bad (rustLines s) h
  simpa [map_lines] using h2

/-- Witness for C3 at the concrete one-token line of the spec. -/
theorem spec_C3_witness :
    (∃ l ∈ rustLines "13000", badCompareLine l = true) ∧
    (∃ e, map_lines ⟨some "13000", some 0⟩ compare_transform = .error e ∧
      ∃ r, e.msg = "Failed to parse to VmIncomatibility. " ++ r) :=
  ⟨by decide, spec_C3 "13000" (some 0) (by decide)⟩

/-- C9: the streamed operations get_vms and compare classification never
inspect the exit status (their result is invariant under changing it), and
a run with a failing exit status whose stdout decodes or classifies
successfully still returns success. -/
theorem spec_C9 (so : Option String) (st st2 : Option Int) (s1 s2 : String)
    (vms : List Vm) (incs : List VmIncompatibility)
    (hst : statusSuccess st = false)
    (h1 : parseVmsDoc s1 = .ok vms)
    (h2 : mapLinesGo compare_transform (rustLines s2) = .ok incs) :
    get_vms (.ok ⟨so, st⟩) = get_vms (.ok ⟨so, st2⟩) ∧
    map_lines ⟨so, st⟩ compare_transform = map_lines ⟨so, st2⟩ compare_transform ∧
    get_vms (.ok ⟨some s1, st⟩) = .ok vms ∧
    map_lines ⟨some s2, st⟩ compare_transform = .ok incs := by
  refine ⟨rfl, rfl, ?_, ?_⟩
  · simp [get_vms, h1]
  · simp [map_lines, h2]

/-- Witness for C9: a failing exit status with well-formed stdout streams. -/
theorem spec_C9_witness :
    statusSuccess (some 1) = false ∧
    parseVmsDoc "[]" = .ok [] ∧
    mapLinesGo compare_transform (rustLines "13000 x") =
      .ok [VmIncompatibility.CannotCreateExternalConfigStore "x"] ∧
    (get_vms (.ok ⟨some "[]", some 1⟩) = get_vms (.ok ⟨some "[]", some 0⟩) ∧
     map_lines ⟨some "[]", some 1⟩ compare_transform =
       map_lines ⟨some "[]", some 0⟩ compare_transform ∧
     get_vms (.ok ⟨some "[]", some 1⟩) = .ok [] ∧
     map_lines ⟨some "13000 x", some 1⟩ compare_transform =
       .ok [VmIncompatibility.CannotCreateExternalConfigStore "x"]) :=
  ⟨rfl, rfl, rfl,
   spec_C9 (some "[]") (some 1) (some 0) "[]" "13000 x" [] _ rfl rfl rfl⟩

/-- A hex digit is a plain JSON-string character. -/
theorem hexVal_plain (c : Char) (d : Nat) (h : hexVal c = some d) :
    plainChar c = true := by
  unfold hexVal at h
  simp only [plainChar, decide_eq_true_eq]
  split_ifs at h with h1 h2 h3
  · omega
  · omega
  · omega

/-- Characters accepted by the simple-form UUID scanner are plain. -/
theorem parseSimpleAux_plain (cs : List Char) :
    ∀ acc v, parseSimpleAux cs acc = some v → ∀ c ∈ cs, plainChar c = true := by
  induction cs with
  | nil =>
    intro acc v h c hc
    simp at hc
  | cons a cs ih =>
    intro acc v h c hc
    unfold parseSimpleAux at h
    cases hh : hexVal a with
    | none =>
      rw [hh] at h
      simp at h
    | some d =>
      rw [hh] at h
      rcases List.mem_cons.mp hc with h1 | h1
      · subst h1
        exact hexVal_plain c d hh
      · exact ih _ _ h c h1

/-- Characters accepted by the hyphenated-form UUID scanner are plain. -/
theorem parseHyphAux_plain (cs : List Char) :
    ∀ i acc v, parseHyphAux i cs acc = some v → ∀ c ∈ cs, plainChar c = true := by
  induction cs with
  | nil =>
    intro i acc v h c hc
    simp at hc
  | cons a cs ih =>
    intro i acc v h c hc
    unfold parseHyphAux at h
    rcases List.mem_cons.mp hc with h1 | h1
    · subst h1
      by_cases hi : i = 8 ∨ i = 13 ∨ i = 18 ∨ i = 23
      · rw [if_pos hi] at h
        by_cases ha : c = '-'
        · rw [ha]
          decide
        · rw [if_neg ha] at h
          simp at h
      · rw [if_neg hi] at h
        cases hh : hexVal c with
        | none =>
          rw [hh] at h
          simp at h
        | some d => exact hexVal_plain c d hh
    · by_cases hi : i = 8 ∨ i = 13 ∨ i = 18 ∨ i = 23
      · rw [if_pos hi] at h
        by_cases ha : a = '-'
        · rw [if_pos ha] at h
          exact ih _ _ _ h c h1
        · rw [if_neg ha] at h
          simp at h
      · rw [if_neg hi] at h
        cases hh : hexVal a with
        | none =>
          rw [hh] at h
          simp at h
        | some d =>
          rw [hh] at h
          exact ih _ _ _ h c h1

/-- Every character of a string the UUID parser accepts is plain, so it can
stand unescaped inside a JSON string literal. -/
theorem uuidTryParse_plain (s : String) (u : Uuid) (h : uuidTryParse s = some u) :
    ∀ c ∈ s.data, plainChar c = true := by
  intro c hc
  simp only [uuidTryParse] at h
  by_cases hurn : s.data.length = 45 ∧ s.data.take 9 = ("urn:uuid:").data
  · rw [if_pos hurn] at h
    have hsplit : s.data = s.data.take 9 ++ s.data.drop 9 :=
      (List.take_append_drop 9 s.data).symm
    rw [hsplit] at hc
    rcases List.mem_append.mp hc with h1 | h1
    · rw [hurn.2] at h1
      have hall : ∀ x ∈ ("urn:uuid:").data, plainChar x = true := by decide
      exact hall c h1
    · by_cases h32 : (s.data.drop 9).length = 32
      · rw [if_pos h32] at h
        cases hp : parseSimpleAux (s.data.drop 9) 0 with
        | none =>
          rw [hp] at h
          simp at h
        | some v => exact parseSimpleAux_plain _ _ _ hp c h1
      · rw [if_neg h32] at h
        by_cases h36 : (s.data.drop 9).length = 36
        · rw [if_pos h36] at h
          cases hp : parseHyphAux 0 (s.data.drop 9) 0 with
          | none =>
            rw [hp] at h
            simp at h
          | some v => exact parseHyphAux_plain _ _ _ _ hp c h1
        · rw [if_neg h36] at h
          simp at h
  · rw [if_neg hurn] at h
    by_cases h32 : s.data.length = 32
    · rw [if_pos h32] at h
      cases hp : parseSimpleAux s.data 0 with
      | none =>
        rw [hp] at h
        simp at h
      | some v => exact parseSimpleAux_plain _ _ _ hp c hc
    · rw [if_neg h32] at h
      by_cases h36 : s.data.length = 36
      · rw [if_pos h36] at h
        cases hp : parseHyphAux 0 s.data 0 with
        | none =>
          rw [hp] at h
          simp at h
        | some v => exact parseHyphAux_plain _ _ _ _ hp c hc
      · rw [if_neg h36] at h
        simp at h

/-- Parsing a JSON string body made of plain characters consumes exactly
those characters up to the closing quote. -/
theorem parseJStringAux_plain (cs rest : List Char)
    (h : ∀ c ∈ cs, plainChar c = true) :
    parseJStringAux (cs ++ '"' :: rest) = some (cs, rest) := by
  induction cs with
  | nil => rfl
  | cons c cs ih =>
    have hc := h c (List.mem_cons_self c cs)
    have hcs : ∀ x ∈ cs, plainChar x = true := fun x hx => h x (List.mem_cons_of_mem c hx)
    have h1 : ¬(c = '"') := by
      intro e
      subst e
      simp [plainChar] at hc
    have h2 : ¬(c = '\\') := by
      intro e
      subst e
      simp [plainChar] at hc
    have h3 : ¬(c.toNat < 0x20) := by
      simp only [plainChar, decide_eq_true_eq] at hc
      omega
    have ih2 := ih hcs
    unfold parseJStringAux at ih2 ⊢
    simp [parseJStringSt, h1, h2, h3, ih2]

/-- Parsing a whole JSON string token of plain characters. -/
theorem parseStringToken_plain (cs rest : List Char)
    (h : ∀ c ∈ cs, plainChar c = true) :
    parseStringToken ('"' :: (cs ++ '"' :: rest)) = .ok (cs, rest) := by
  show (match parseJStringAux (cs ++ '"' :: rest) with
      | none => (.error "invalid string" : Except String (List Char × List Char))
      | some p => .ok p) = .ok (cs, rest)
  rw [parseJStringAux_plain cs rest h]

/-- Parsing the Id field whose value is a plain-character identifier. -/
theorem parseField_Id (cs rest : List Char)
    (h : ∀ c ∈ cs, plainChar c = true) :
    parseField ('"' :: 'I' :: 'd' :: '"' :: ':' :: '"' :: (cs ++ '"' :: rest)) =
      .ok (("Id", String.mk cs), rest) := by
  show (match parseStringToken ('"' :: (cs ++ '"' :: rest)) with
      | .error e => (.error e : Except String ((String × String) × List Char))
      | .ok (v, cs3) => .ok ((String.mk ('I' :: 'd' :: []), String.mk v), cs3)) =
    .ok (("Id", String.mk cs), rest)
  rw [parseStringToken_plain cs rest h]

/-- Evaluating parseVmObject on the one-record document body when the
identifier parses as a UUID. -/
theorem parseVmObject_single_ok (cs : List Char) (u : Uuid)
    (hp : ∀ c ∈ cs, plainChar c = true)
    (hu : uuidTryParse (String.mk cs) = some u) :
    parseVmObject (lbraceChar :: '"' :: 'I' :: 'd' :: '"' :: ':' :: '"' ::
      (cs ++ '"' :: ',' :: '"' :: 'N' :: 'a' :: 'm' :: 'e' :: '"' :: ':' :: '"' ::
       'v' :: 'm' :: '1' :: '"' :: rbraceChar :: ']' :: [])) =
      .ok (Vm.mk u "vm1", ']' :: []) := by
  show (match parseField ('"' :: 'I' :: 'd' :: '"' :: ':' :: '"' ::
      (cs ++ '"' :: ',' :: '"' :: 'N' :: 'a' :: 'm' :: 'e' :: '"' :: ':' :: '"' ::
       'v' :: 'm' :: '1' :: '"' :: rbraceChar :: ']' :: [])) with
    | .error e => (.error e : Except String (Vm × List Char))
    | .ok (kv1, cs2) => afterField1 kv1 cs2) = .ok (Vm.mk u "vm1", ']' :: [])
  rw [parseField_Id cs (',' :: '"' :: 'N' :: 'a' :: 'm' :: 'e' :: '"' :: ':' :: '"' ::
       'v' :: 'm' :: '1' :: '"' :: rbraceChar :: ']' :: []) hp]
  show (match (match uuidTryParse (String.mk cs) with
        | some u2 => (Except.ok (Vm.mk u2 "vm1") : Except String Vm)
        | none => Except.error "UUID parsing failed") with
      | .error e => (.error e : Except String (Vm × List Char))
      | .ok vm => .ok (vm, ']' :: [])) = .ok (Vm.mk u "vm1", ']' :: [])
  rw [hu]

/-- Evaluating parseVmObject on the one-record document body when the
identifier is rejected by UUID parsing. -/
theorem parseVmObject_single_err (cs : List Char)
    (hp : ∀ c ∈ cs, plainChar c = true)
    (hu : uuidTryParse (String.mk cs) = none) :
    parseVmObject (lbraceChar :: '"' :: 'I' :: 'd' :: '"' :: ':' :: '"' ::
      (cs ++ '"' :: ',' :: '"' :: 'N' :: 'a' :: 'm' :: 'e' :: '"' :: ':' :: '"' ::
       'v' :: 'm' :: '1' :: '"' :: rbraceChar :: ']' :: [])) =
      .error "UUID parsing failed" := by
  show (match parseField ('"' :: 'I' :: 'd' :: '"' :: ':' :: '"' ::
      (cs ++ '"' :: ',' :: '"' :: 'N' :: 'a' :: 'm' :: 'e' :: '"' :: ':' :: '"' ::
       'v' :: 'm' :: '1' :: '"' :: rbraceChar :: ']' :: [])) with
    | .error e => (.error e : Except String (Vm × List Char))
    | .ok (kv1, cs2) => afterField1 kv1 cs2) = .error "UUID parsing failed"
  rw [parseField_Id cs (',' :: '"' :: 'N' :: 'a' :: 'm' :: 'e' :: '"' :: ':' :: '"' ::
       'v' :: 'm' :: '1' :: '"' :: rbraceChar :: ']' :: []) hp]
  show (match (match uuidTryParse (String.mk cs) with
        | some u2 => (Except.ok (Vm.mk u2 "vm1") : Except String Vm)
        | none => Except.error "UUID parsing failed") with
      | .error e => (.error e : Except String (Vm × List Char))
      | .ok vm => .ok (vm, ']' :: [])) = .error "UUID parsing failed"
  rw [hu]

/-- One-element step of the Vec<Vm> element loop: an object followed by the
closing bracket and end of input. -/
theorem parseVmsElems_step (n : Nat) (l : List Char) (vm : Vm)
    (ho : parseVmObject l = .ok (vm, ']' :: [])) :
    parseVmsElems (n + 1) l = .ok [vm] := by
  show (match parseVmObject l with
      | .error e => (.error e : Except String (List Vm))
      | .ok (vm2, cs1) =>
        match skipWs cs1 with
        | [] => .error "unexpected end of input"
        | c :: cs2 =>
          if c = ']' then
            if (skipWs cs2).isEmpty then .ok [vm2] else .error "trailing characters"
          else if c = ',' then
            match parseVmsElems n cs2 with
            | .error e => .error e
            | .ok vms => .ok (vm2 :: vms)
          else .error "expected comma or close bracket") = .ok [vm]
  rw [ho]
  rfl

/-- Failing step of the Vec<Vm> element loop: the object parse fails. -/
theorem parseVmsElems_stepErr (n : Nat) (l : List Char) (e : String)
    (ho : parseVmObject l = .error e) :
    parseVmsElems (n + 1) l = .error e := by
  show (match parseVmObject l with
      | .error e2 => (.error e2 : Except String (List Vm))
      | .ok (vm2, cs1) =>
        match skipWs cs1 with
        | [] => .error "unexpected end of input"
        | c :: cs2 =>
          if c = ']' then
            if (skipWs cs2).isEmpty then .ok [vm2] else .error "trailing characters"
          else if c = ',' then
            match parseVmsElems n cs2 with
            | .error e2 => .error e2
            | .ok vms => .ok (vm2 :: vms)
          else .error "expected comma or close bracket") = .error e
  rw [ho]

/-- Decoding the one-record document succeeds with the parsed UUID. -/
theorem parseVmsDoc_single_ok (s : String) (u : Uuid)
    (hp : ∀ c ∈ s.data, plainChar c = true)
    (hu : uuidTryParse s = some u) :
    parseVmsDoc (vmDoc s) = .ok [Vm.mk u "vm1"] := by
  obtain ⟨cs⟩ := s
  have hp2 : ∀ c ∈ cs, plainChar c = true := hp
  have ho := parseVmObject_single_ok cs u hp2 hu
  show parseVmsElems ((lbraceChar :: '"' :: 'I' :: 'd' :: '"' :: ':' :: '"' ::
      (cs ++ '"' :: ',' :: '"' :: 'N' :: 'a' :: 'm' :: 'e' :: '"' :: ':' :: '"' ::
       'v' :: 'm' :: '1' :: '"' :: rbraceChar :: ']' :: [])).length + 1)
    (lbraceChar :: '"' :: 'I' :: 'd' :: '"' :: ':' :: '"' ::
      (cs ++ '"' :: ',' :: '"' :: 'N' :: 'a' :: 'm' :: 'e' :: '"' :: ':' :: '"' ::
       'v' :: 'm' :: '1' :: '"' :: rbraceChar :: ']' :: [])) = .ok [Vm.mk u "vm1"]
  exact parseVmsElems_step _ _ _ ho

/-- Decoding the one-record document fails when the identifier is rejected
by UUID parsing. -/
theorem parseVmsDoc_single_err (s : String)
    (hp : ∀ c ∈ s.data, plainChar c = true)
    (hu : uuidTryParse s = none) :
    parseVmsDoc (vmDoc s) = .error "UUID parsing failed" := by
  obtain ⟨cs⟩ := s
  have hp2 : ∀ c ∈ cs, plainChar c = true := hp
  have ho := parseVmObject_single_err cs hp2 hu
  show parseVmsElems ((lbraceChar :: '"' :: 'I' :: 'd' :: '"' :: ':' :: '"' ::
      (cs ++ '"' :: ',' :: '"' :: 'N' :: 'a' :: 'm' :: 'e' :: '"' :: ':' :: '"' ::
       'v' :: 'm' :: '1' :: '"' :: rbraceChar :: ']' :: [])).length + 1)
    (lbraceChar :: '"' :: 'I' :: 'd' :: '"' :: ':' :: '"' ::
      (cs ++ '"' :: ',' :: '"' :: 'N' :: 'a' :: 'm' :: 'e' :: '"' :: ':' :: '"' ::
       'v' :: 'm' :: '1' :: '"' :: rbraceChar :: ']' :: [])) = .error "UUID parsing failed"
  exact parseVmsElems_stepErr _ _ _ ho

/-- C5: for every identifier text the UUID parser accepts, get_vms over the
one-record document returns exactly one Vm with that id and name vm1, and
over the empty document returns the empty list as a success. -/
theorem spec_C5 (s : String) (u : Uuid) (st : Option Int)
    (h : uuidTryParse s = some u) :
    get_vms (.ok ⟨some (vmDoc s), st⟩) = .ok [Vm.mk u "vm1"] ∧
    get_vms (.ok ⟨some "[]", st⟩) = .ok [] := by
  constructor
  · have hp := uuidTryParse_plain s u h
    have hd := parseVmsDoc_single_ok s u hp h
    simp [get_vms, hd]
  · rfl

/-- Witness for C5 at a concrete hyphenated UUID. -/
theorem spec_C5_witness :
    uuidTryParse "936da01f-9abd-4d9d-80c7-02af85c822a8" =
      some ⟨0x936da01f9abd4d9d80c702af85c822a8⟩ ∧
    (get_vms (.ok ⟨some (vmDoc "936da01f-9abd-4d9d-80c7-02af85c822a8"), some 0⟩) =
        .ok [Vm.mk ⟨0x936da01f9abd4d9d80c702af85c822a8⟩ "vm1"] ∧
     get_vms (.ok ⟨some "[]", some 0⟩) = .ok []) :=
  ⟨by decide, spec_C5 "936da01f-9abd-4d9d-80c7-02af85c822a8"
    ⟨0x936da01f9abd4d9d80c702af85c822a8⟩ (some 0) (by decide)⟩

/-- C8 counterexample: a document whose identifier field is valid text but
not in UUID format is rejected by the decode, not silently accepted. -/
theorem spec_C8_counterexample :
    get_vms (.ok ⟨some (vmDoc "not-a-uuid"), some 0⟩) =
      .error ⟨"Failed to parse powershell output: UUID parsing failed"⟩ := by
  rfl

/-- C8 (amended): for every identifier of plain text that the UUID parser
rejects, the document decode in get_vms fails with a decode error rather
than accepting the record. -/
theorem spec_C8 (s : String) (st : Option Int)
    (hplain : ∀ c ∈ s.data, plainChar c = true)
    (hbad : uuidTryParse s = none) :
    get_vms (.ok ⟨some (vmDoc s), st⟩) =
      .error ⟨"Failed to parse powershell output: UUID parsing failed"⟩ := by
  have hd := parseVmsDoc_single_err s hplain hbad
  simp [get_vms, hd]

/-- Witness for C8 at a concrete malformed identifier. -/
theorem spec_C8_witness :
    (∀ c ∈ ("not-a-uuid").data, plainChar c = true) ∧
    uuidTryParse "not-a-uuid" = none ∧
    get_vms (.ok ⟨some (vmDoc "not-a-uuid"), some 1⟩) =
      .error ⟨"Failed to parse powershell output: UUID parsing failed"⟩ :=
  ⟨by decide, by decide, spec_C8 "not-a-uuid" (some 1) (by decide) (by decide)⟩
